import Mathlib

/-!
# Verification of the Modified Berggren frost-depth calculator

Shallow embedding of `modberg.py` (and the selector sets of `app.py`) from
`ua-snap/streamlit-frost-depth`.  Numbers are modelled as exact rationals;
Python's `round(x, n)` (round-half-to-even on decimals) is modelled by
`roundTo`, and `round(a * sqrt(q), n)` — the only places `np.sqrt` occurs —
by the computable `roundMulSqrt`, which returns the multiple of `10⁻ⁿ`
nearest to `a·√q` (half-to-even at the rational tie).  Fallible code
(Python exceptions: `KeyError`, `ZeroDivisionError`, and NaN/inf results
from `np.sqrt` of a negative number or division of a numpy float by zero)
is modelled with `Option`: `none` means "no finite result".
The two HTTP fetches take the decoded remote JSON response as an explicit
argument; the order of side effects is modelled by `ApiEvent` traces.
-/

set_option maxHeartbeats 1600000

namespace Modberg

/-- Round-half-to-even to the nearest integer, the convention of Python's
built-in `round` (and of `numpy`). -/
def roundHalfEven (q : ℚ) : ℤ :=
  if q - ⌊q⌋ < 1/2 then ⌊q⌋
  else if 1/2 < q - ⌊q⌋ then ⌊q⌋ + 1
  else if 2 ∣ ⌊q⌋ then ⌊q⌋ else ⌊q⌋ + 1

/-- `round(q, n)` of Python: round `q` to `n` decimal places, half to even. -/
def roundTo (n : ℕ) (q : ℚ) : ℚ :=
  (roundHalfEven (q * 10 ^ n) : ℚ) / 10 ^ n

/-- The integer nearest to `√m` (for `m ≥ 0`; `0` for `m < 0`), half to even. -/
def natSqrtRound (m : ℚ) : ℕ :=
  if m ≤ 0 then 0
  else if 4 * m < ((2 * Nat.sqrt ⌊m⌋.toNat + 1 : ℕ) ^ 2 : ℚ) then Nat.sqrt ⌊m⌋.toNat
  else if ((2 * Nat.sqrt ⌊m⌋.toNat + 1 : ℕ) ^ 2 : ℚ) < 4 * m then Nat.sqrt ⌊m⌋.toNat + 1
  else if 2 ∣ Nat.sqrt ⌊m⌋.toNat then Nat.sqrt ⌊m⌋.toNat else Nat.sqrt ⌊m⌋.toNat + 1

/-- `round(a * sqrt(q), n)`: the multiple of `10⁻ⁿ` nearest to `a·√q`,
computed exactly (for `q ≥ 0`). -/
def roundMulSqrt (n : ℕ) (a q : ℚ) : ℚ :=
  if a < 0 then -((natSqrtRound (a ^ 2 * q * 10 ^ (2 * n)) : ℚ) / 10 ^ n)
  else (natSqrtRound (a ^ 2 * q * 10 ^ (2 * n)) : ℚ) / 10 ^ n

/-! ## The numeric step functions of `modberg.py` -/

/-- `compute_volumetric_latent_heat_of_fusion` (modberg.py line 18):
`L = 144 * dry_ro * (wc_pct / 100)`, rounded to 2 decimals. -/
def compute_volumetric_latent_heat_of_fusion (dry_ro wc_pct : ℚ) : ℚ :=
  roundTo 2 (144 * dry_ro * (wc_pct / 100))

/-- `compute_frozen_volumetric_specific_heat` (line 30):
`c = dry_ro * (0.17 + 0.5 * (wc_pct / 100))`, rounded to 2 decimals. -/
def compute_frozen_volumetric_specific_heat (dry_ro wc_pct : ℚ) : ℚ :=
  roundTo 2 (dry_ro * (17/100 + (1/2) * (wc_pct / 100)))

/-- `compute_unfrozen_volumetric_specific_heat` (line 42):
`c = dry_ro * (0.17 + 1.0 * (wc_pct / 100))`, rounded to 2 decimals. -/
def compute_unfrozen_volumetric_specific_heat (dry_ro wc_pct : ℚ) : ℚ :=
  roundTo 2 (dry_ro * (17/100 + 1 * (wc_pct / 100)))

/-- `compute_avg_volumetric_specific_heat` (line 54):
`c = dry_ro * (0.17 + 0.75 * (wc_pct / 100))`, rounded to 2 decimals. -/
def compute_avg_volumetric_specific_heat (dry_ro wc_pct : ℚ) : ℚ :=
  roundTo 2 (dry_ro * (17/100 + (3/4) * (wc_pct / 100)))

/-- `compute_seasonal_v_s` (line 69): `v_s = nFI / d`, unrounded.
`d = 0` raises `ZeroDivisionError` in the source, hence `none`. -/
def compute_seasonal_v_s (nFI d : ℚ) : Option ℚ :=
  if d = 0 then none else some (nFI / d)

/-- `compute_v_o` (line 118): `v_o = abs(magt - 32)`, unrounded. -/
def compute_v_o (magt : ℚ) : ℚ := |magt - 32|

/-- `compute_thermal_ratio` (line 133): `v_o / v_s` rounded to 3 decimals;
`v_s = 0` raises `ZeroDivisionError`, hence `none`. -/
def compute_thermal_ratio (v_o v_s : ℚ) : Option ℚ :=
  if v_s = 0 then none else some (roundTo 3 (v_o / v_s))

/-- `compute_fusion_parameter` (line 147): `mu = v_s * (c / L)` rounded to
3 decimals; `L = 0` raises `ZeroDivisionError`, hence `none`. -/
def compute_fusion_parameter (v_s c L : ℚ) : Option ℚ :=
  if L = 0 then none else some (roundTo 3 (v_s * (c / L)))

/-- `compute_coeff` (line 171): `lc = 1.0 / np.sqrt(1 + mu * (tr + 0.5))`
rounded to 2 decimals.  A non-positive radicand gives NaN or inf in the
source (no finite result), hence `none`; otherwise
`1/√t = √(1/t)` is rounded exactly. -/
def compute_coeff (mu tr : ℚ) : Option ℚ :=
  if 1 + mu * (tr + 1/2) ≤ 0 then none
  else some (roundMulSqrt 2 1 (1 / (1 + mu * (tr + 1/2))))

/-- `compute_depth_of_freezing` (line 186):
`x = coeff * np.sqrt((48 * k_avg * nFI) / L)` rounded to 1 decimal.
`L = 0` raises `ZeroDivisionError`; a negative radicand gives NaN. -/
def compute_depth_of_freezing (coeff k_avg nFI L : ℚ) : Option ℚ :=
  if L = 0 then none
  else if (48 * k_avg * nFI) / L < 0 then none
  else some (roundMulSqrt 1 coeff ((48 * k_avg * nFI) / L))

/-! ## Evaluation and bound lemmas for the rounding primitives -/

lemma roundHalfEven_eq_low (q : ℚ) (z : ℤ) (h1 : (z : ℚ) ≤ q) (h2 : q < z + 1/2) :
    roundHalfEven q = z := by
  have hf : ⌊q⌋ = z := Int.floor_eq_iff.mpr ⟨h1, by linarith⟩
  unfold roundHalfEven
  rw [hf, if_pos (by linarith)]

lemma roundHalfEven_eq_high (q : ℚ) (z : ℤ) (h1 : (z : ℚ) - 1/2 < q) (h2 : q < z) :
    roundHalfEven q = z := by
  have hf : ⌊q⌋ = z - 1 := Int.floor_eq_iff.mpr ⟨by push_cast; linarith, by push_cast; linarith⟩
  unfold roundHalfEven
  rw [hf, if_neg (by push_cast; linarith), if_pos (by push_cast; linarith)]
  omega

lemma roundHalfEven_ge_floor (q : ℚ) : ⌊q⌋ ≤ roundHalfEven q := by
  unfold roundHalfEven
  split_ifs <;> omega

lemma roundHalfEven_nonneg (q : ℚ) (h : 0 ≤ q) : 0 ≤ roundHalfEven q :=
  le_trans (Int.floor_nonneg.mpr h) (roundHalfEven_ge_floor q)

lemma roundTo_eq_low (n : ℕ) (q : ℚ) (z : ℤ) (h1 : (z : ℚ) ≤ q * 10 ^ n)
    (h2 : q * 10 ^ n < z + 1/2) : roundTo n q = z / 10 ^ n := by
  unfold roundTo
  rw [roundHalfEven_eq_low (q * 10 ^ n) z h1 h2]

lemma roundTo_eq_high (n : ℕ) (q : ℚ) (z : ℤ) (h1 : (z : ℚ) - 1/2 < q * 10 ^ n)
    (h2 : q * 10 ^ n < z) : roundTo n q = z / 10 ^ n := by
  unfold roundTo
  rw [roundHalfEven_eq_high (q * 10 ^ n) z h1 h2]

lemma roundTo_nonneg (n : ℕ) (q : ℚ) (h : 0 ≤ q) : 0 ≤ roundTo n q := by
  unfold roundTo
  have h0 : (0 : ℚ) ≤ (roundHalfEven (q * 10 ^ n) : ℚ) := by
    exact_mod_cast roundHalfEven_nonneg _ (by positivity)
  positivity

lemma roundTo_pos (n : ℕ) (q : ℚ) (h : 1 ≤ q) : 0 < roundTo n q := by
  unfold roundTo
  have h1 : (10 : ℚ) ^ n ≤ q * 10 ^ n := by
    have : (0 : ℚ) < 10 ^ n := by positivity
    nlinarith
  have h2 : (10 : ℤ) ^ n ≤ ⌊q * 10 ^ n⌋ := by
    rw [Int.le_floor]; push_cast; linarith
  have h3 : (10 : ℤ) ^ n ≤ roundHalfEven (q * 10 ^ n) :=
    le_trans h2 (roundHalfEven_ge_floor _)
  have h4 : (0 : ℚ) < (roundHalfEven (q * 10 ^ n) : ℚ) := by
    have : (0 : ℤ) < 10 ^ n := by positivity
    exact_mod_cast lt_of_lt_of_le this h3
  positivity

lemma natSqrtRound_eq (m : ℚ) (k : ℕ) (hm : 0 < m)
    (hlo : (2 * (k : ℚ) - 1) ^ 2 < 4 * m) (hhi : 4 * m < (2 * (k : ℚ) + 1) ^ 2) :
    natSqrtRound m = k := by
  unfold natSqrtRound
  rw [if_neg (not_le.mpr hm)]
  have hfl : (0 : ℤ) ≤ ⌊m⌋ := Int.floor_nonneg.mpr (le_of_lt hm)
  set s := Nat.sqrt ⌊m⌋.toNat with hs
  have hcast : ((⌊m⌋.toNat : ℚ)) = ((⌊m⌋ : ℤ) : ℚ) := by
    exact_mod_cast Int.toNat_of_nonneg hfl
  have hlow : ((s : ℚ)) ^ 2 ≤ m := by
    have h1 : (s : ℕ) ^ 2 ≤ ⌊m⌋.toNat := Nat.sqrt_le' _
    have h2 : ((s : ℚ)) ^ 2 ≤ ((⌊m⌋.toNat : ℚ)) := by exact_mod_cast h1
    calc ((s : ℚ)) ^ 2 ≤ ((⌊m⌋.toNat : ℚ)) := h2
      _ = ((⌊m⌋ : ℤ) : ℚ) := hcast
      _ ≤ m := Int.floor_le m
  have hhigh : m < ((s : ℚ) + 1) ^ 2 := by
    have h1 : ⌊m⌋.toNat < (s + 1) ^ 2 := Nat.lt_succ_sqrt' _
    have h2 : ((⌊m⌋.toNat : ℚ)) + 1 ≤ ((s : ℚ) + 1) ^ 2 := by exact_mod_cast h1
    have h3 : m < ((⌊m⌋ : ℤ) : ℚ) + 1 := Int.lt_floor_add_one m
    calc m < ((⌊m⌋ : ℤ) : ℚ) + 1 := h3
      _ = ((⌊m⌋.toNat : ℚ)) + 1 := by rw [hcast]
      _ ≤ ((s : ℚ) + 1) ^ 2 := h2
  -- `s` is `k - 1` or `k`
  have hsk : s ≤ k := by
    by_contra hc
    push_neg at hc
    have : ((k : ℚ)) + 1 ≤ (s : ℚ) := by exact_mod_cast hc
    nlinarith
  have hks : k ≤ s + 1 := by
    by_contra hc
    push_neg at hc
    have : ((s : ℚ)) + 2 ≤ (k : ℚ) := by exact_mod_cast hc
    nlinarith
  split_ifs with h1 h2 h3
  · -- round down: `4m < (2s+1)²` forces `k ≤ s`
    push_cast at h1
    have : k ≤ s := by
      by_contra hc
      push_neg at hc
      have hq : (s : ℚ) + 1 ≤ (k : ℚ) := by exact_mod_cast hc
      nlinarith
    omega
  · -- round up: `(2s+1)² < 4m` forces `s < k`
    push_cast at h2
    have : s < k := by
      by_contra hc
      push_neg at hc
      have hq : (k : ℚ) ≤ (s : ℚ) := by exact_mod_cast hc
      nlinarith
    omega
  · -- the tie `4m = (2s+1)²` is impossible under the strict bounds
    push_cast at h1 h2
    have ht : 4 * m = (2 * (s : ℚ) + 1) ^ 2 := le_antisymm (not_lt.mp h2) (not_lt.mp h1)
    have hks' : k ≤ s := by
      by_contra hc
      push_neg at hc
      have hq : (s : ℚ) + 1 ≤ (k : ℚ) := by exact_mod_cast hc
      nlinarith
    have hsk' : s < k := by
      by_contra hc
      push_neg at hc
      have hq : (k : ℚ) ≤ (s : ℚ) := by exact_mod_cast hc
      nlinarith
    omega
  · push_cast at h1 h2
    have ht : 4 * m = (2 * (s : ℚ) + 1) ^ 2 := le_antisymm (not_lt.mp h2) (not_lt.mp h1)
    have hks' : k ≤ s := by
      by_contra hc
      push_neg at hc
      have hq : (s : ℚ) + 1 ≤ (k : ℚ) := by exact_mod_cast hc
      nlinarith
    have hsk' : s < k := by
      by_contra hc
      push_neg at hc
      have hq : (k : ℚ) ≤ (s : ℚ) := by exact_mod_cast hc
      nlinarith
    omega


/-! ## The remote-data client of `modberg.py`

The two fetches are modelled as functions of the decoded JSON response,
passed in as an explicit argument.  Sub-period keys of the temperature
response are represented by their parsed leading 4-digit year (the source
computes `int(key.split('_')[0])`); dictionary access is association-list
lookup, with `none` standing for Python's `KeyError`. -/

/-- A model → scenario → (year, °C value) response of the `mmm/temperature`
endpoint, sub-period keys already parsed to their leading year. -/
abbrev TempResponse := List (String × List (String × List (ℤ × ℚ)))

/-- A model → era → field → value response of the `design_index/freezing`
endpoint. -/
abbrev FiResponse := List (String × List (String × List (String × ℚ)))

/-- `df.loc[year_start:year_end]` on the year-indexed frame: label slicing
is inclusive at both ends. -/
def yearSlice (year_start year_end : ℤ) (entries : List (ℤ × ℚ)) : List (ℤ × ℚ) :=
  entries.filter fun e => decide (year_start ≤ e.1 ∧ e.1 ≤ year_end)

/-- Arithmetic mean of a list of rationals (`DataFrame.mean`); the mean of
an empty list is NaN in the source, here `0` (callers guard emptiness). -/
def listMean (l : List ℚ) : ℚ := l.sum / l.length

/-- `get_projected_mat_from_api` (modberg.py lines 73-84): select the
model / scenario branch (`KeyError`, i.e. `none`, when absent), keep the
entries whose year is in `[year_start, year_end]`, average them, convert
`°C` to `°F` by `F = C * 1.8 + 32` and round to 1 decimal.  An empty year
selection makes the mean NaN in the source: no finite result, `none`. -/
def get_projected_mat_from_api (resp : TempResponse) (model scenario : String)
    (year_start year_end : ℤ) : Option ℚ :=
  ((resp.lookup model).bind (fun b => b.lookup scenario)).bind fun entries =>
    if (yearSlice year_start year_end entries).length = 0 then none
    else some (roundTo 1
      (listMean ((yearSlice year_start year_end entries).map Prod.snd) * (9/5) + 32))

/-- `get_projected_design_fi_from_api` (lines 87-91):
`resp[model][era]["di"]`, returned unchanged; any missing key raises
`KeyError`, i.e. `none`. -/
def get_projected_design_fi_from_api (resp : FiResponse) (model era : String) : Option ℚ :=
  (((resp.lookup model).bind (fun b => b.lookup era)).bind (fun o => o.lookup "di"))

/-- Side effects of a fetch, in program order. -/
inductive ApiEvent
  | httpGet
  | keyError
  | inputRangeError
  deriving DecidableEq

/-- Side-effect trace of `get_projected_mat_from_api`: `requests.get` is
executed first (line 77), unconditionally; the dictionary lookups, which
raise `KeyError` on an unknown model or scenario, happen on the response
afterward.  No selector validation precedes the request. -/
def mat_fetch_events (resp : TempResponse) (model scenario : String) : List ApiEvent :=
  ApiEvent.httpGet ::
    (match (resp.lookup model).bind (fun b => b.lookup scenario) with
     | none => [ApiEvent.keyError]
     | some _ => [])

/-- Side-effect trace of `get_projected_design_fi_from_api` (line 90):
the request, then the `[model][era]["di"]` lookups. -/
def design_fi_fetch_events (resp : FiResponse) (model era : String) : List ApiEvent :=
  ApiEvent.httpGet ::
    (match get_projected_design_fi_from_api resp model era with
     | none => [ApiEvent.keyError]
     | some _ => [])

/-- Side effects of `compute_modified_bergrenn`: the numeric steps perform
none; line 201 runs the temperature fetch unconditionally. -/
def compute_modified_bergrenn_events (resp : TempResponse) (model scenario : String) :
    List ApiEvent :=
  mat_fetch_events resp model scenario

/-! ## The pipeline `compute_modified_bergrenn` (lines 190-211) -/

/-- `compute_modified_bergrenn`: fetches the projected mean annual
temperature (line 201), overwriting the `mat` argument with a value that
is never read afterward, then runs the eight-step chain on
`dry_ro, wc_pct, magt, d, nFI, k_avg`. -/
def compute_modified_bergrenn (dry_ro wc_pct mat magt d nFI k_avg : ℚ)
    (resp : TempResponse) (model scenario : String) (year_start year_end : ℤ) : Option ℚ :=
  (get_projected_mat_from_api resp model scenario year_start year_end).bind fun _mat =>
    let L := compute_volumetric_latent_heat_of_fusion dry_ro wc_pct
    let c := compute_avg_volumetric_specific_heat dry_ro wc_pct
    ( compute_seasonal_v_s nFI d).bind fun v_s =>
      ( compute_thermal_ratio (compute_v_o magt) v_s).bind fun tr =>
        ( compute_fusion_parameter v_s c L).bind fun mu =>
          ( compute_coeff mu tr).bind fun lambda_coeff =>
            compute_depth_of_freezing lambda_coeff k_avg nFI L

/-- The numeric chain of `compute_modified_bergrenn` (lines 203-211) as a
function of the six inputs it actually reads. -/
def frost_depth_from_inputs (dry_ro wc_pct magt d nFI k_avg : ℚ) : Option ℚ :=
  let L := compute_volumetric_latent_heat_of_fusion dry_ro wc_pct
  let c := compute_avg_volumetric_specific_heat dry_ro wc_pct
  ( compute_seasonal_v_s nFI d).bind fun v_s =>
    ( compute_thermal_ratio (compute_v_o magt) v_s).bind fun tr =>
      ( compute_fusion_parameter v_s c L).bind fun mu =>
        ( compute_coeff mu tr).bind fun lambda_coeff =>
          compute_depth_of_freezing lambda_coeff k_avg nFI L

/-- Modelled from the spec: the eight-step chain exactly as §4.2 words it,
each step consuming the previous step's rounded output — `L` and `c`
rounded to 2 decimals, `v_s` and `v_o` unrounded, the thermal ratio and
`mu` rounded to 3 decimals, lambda rounded to 2 decimals and the final
depth rounded to 1 decimal. -/
def specFrostDepthChain (dryDensity waterContentPct meanGroundTemp durationDays nFI k_avg : ℚ) :
    Option ℚ :=
  let L := roundTo 2 (144 * dryDensity * (waterContentPct / 100))
  let c := roundTo 2 (dryDensity * (17/100 + (3/4) * (waterContentPct / 100)))
  if durationDays = 0 then none
  else
    let v_s := nFI / durationDays
    let v_o := |meanGroundTemp - 32|
    if v_s = 0 then none
    else if L = 0 then none
    else
      let tr := roundTo 3 (v_o / v_s)
      let mu := roundTo 3 (v_s * (c / L))
      if 1 + mu * (tr + 1/2) ≤ 0 then none
      else
        let lam := roundMulSqrt 2 1 (1 / (1 + mu * (tr + 1/2)))
        if (48 * k_avg * nFI) / L < 0 then none
        else some (roundMulSqrt 1 lam ((48 * k_avg * nFI) / L))

/-- The same formulas with every intermediate rounding dropped and a single
rounding of the final depth, used to witness that the stepwise-rounded
chain is not equivalent to rounding once at the end
(the unrounded depth is `√(s/t)` for `s = 48·k·nFI/L`,
`t = 1 + mu·(tr + 1/2)`). -/
def deferredFrostDepth (dryDensity waterContentPct meanGroundTemp durationDays nFI k_avg : ℚ) :
    Option ℚ :=
  let L := 144 * dryDensity * (waterContentPct / 100)
  let c := dryDensity * (17/100 + (3/4) * (waterContentPct / 100))
  if durationDays = 0 then none
  else
    let v_s := nFI / durationDays
    let v_o := |meanGroundTemp - 32|
    if v_s = 0 then none
    else if L = 0 then none
    else
      let tr := v_o / v_s
      let mu := v_s * (c / L)
      if 1 + mu * (tr + 1/2) ≤ 0 then none
      else if (48 * k_avg * nFI) / L < 0 then none
      else some (roundMulSqrt 1 1 (((48 * k_avg * nFI) / L) / (1 + mu * (tr + 1/2))))

/-! ## The selector sets of `app.py` and concrete sample responses -/

/-- The five climate models offered for the temperature fetch (app.py). -/
def temperature_models : List String :=
  ["GFDL-CM3", "NCAR-CCSM4", "GISS-E2-R", "IPSL-CM5A-LR", "MRI-CGCM3"]

/-- The three RCP emissions codes offered (app.py). -/
def emissions_rcp_codes : List String := ["rcp45", "rcp6", "rcp85"]

/-- The two climate models offered for the design-freezing-index fetch. -/
def design_fi_models : List String := ["GFDL-CM3", "NCAR-CCSM4"]

/-- The two summary eras offered for the design-freezing-index fetch. -/
def design_fi_eras : List String := ["2040-2069", "2070-2099"]

/-- A concrete temperature response used for witnesses. -/
def demoTempResponse : TempResponse :=
  [("GFDL-CM3",
    [("rcp45", [(2040, 1), (2050, 2), (2075, 10)]),
     ("rcp85", [(2040, 3)])]),
   ("NCAR-CCSM4", [("rcp45", [(2040, -2)])])]

/-- A concrete design-freezing-index response used for witnesses. -/
def demoFiResponse : FiResponse :=
  [("GFDL-CM3", [("2040-2069", [("di", 3000)]), ("2070-2099", [("di", 2500)])]),
   ("NCAR-CCSM4", [("2040-2069", [("di", 2800)])])]

/-! ## Helper lemmas: evaluating `roundMulSqrt`, and concrete step values -/

lemma roundMulSqrt_eq_of (n : ℕ) (a q : ℚ) (k : ℕ) (ha : ¬ a < 0)
    (hm : 0 < a ^ 2 * q * 10 ^ (2 * n))
    (hlo : (2 * (k : ℚ) - 1) ^ 2 < 4 * (a ^ 2 * q * 10 ^ (2 * n)))
    (hhi : 4 * (a ^ 2 * q * 10 ^ (2 * n)) < (2 * (k : ℚ) + 1) ^ 2) :
    roundMulSqrt n a q = (k : ℚ) / 10 ^ n := by
  unfold roundMulSqrt
  rw [if_neg ha, natSqrtRound_eq _ k hm hlo hhi]

lemma roundMulSqrt_nonneg (n : ℕ) (a q : ℚ) (ha : 0 ≤ a) : 0 ≤ roundMulSqrt n a q := by
  unfold roundMulSqrt
  rw [if_neg (not_lt.mpr ha)]
  positivity

/-- The bind chain of the numeric steps reduced to nested conditionals,
stated over atomic inputs so that proof terms stay small. -/
lemma bind_chain_eq (d nFI v_o L c k_avg : ℚ) :
    (( compute_seasonal_v_s nFI d).bind fun v_s =>
      ( compute_thermal_ratio v_o v_s).bind fun tr =>
        ( compute_fusion_parameter v_s c L).bind fun mu =>
          ( compute_coeff mu tr).bind fun lambda_coeff =>
            compute_depth_of_freezing lambda_coeff k_avg nFI L)
      = if d = 0 then none
        else if nFI / d = 0 then none
        else if L = 0 then none
        else if 1 + roundTo 3 (nFI / d * (c / L)) * (roundTo 3 (v_o / (nFI / d)) + 1/2) ≤ 0
          then none
        else if (48 * k_avg * nFI) / L < 0 then none
        else some (roundMulSqrt 1
            (roundMulSqrt 2 1
              (1 / (1 + roundTo 3 (nFI / d * (c / L)) * (roundTo 3 (v_o / (nFI / d)) + 1/2))))
            ((48 * k_avg * nFI) / L)) := by
  unfold compute_seasonal_v_s compute_thermal_ratio compute_fusion_parameter
    compute_coeff compute_depth_of_freezing
  by_cases hd : d = 0
  · simp [hd]
  · simp only [if_neg hd, Option.some_bind]
    by_cases hvs : nFI / d = 0
    · simp [hvs]
    · simp only [if_neg hvs, Option.some_bind]
      by_cases hL : L = 0
      · simp [hL]
      · simp only [if_neg hL, Option.some_bind]
        split_ifs with ht hr <;> rfl

/-- The source chain as nested conditionals, the step functions kept as
atoms. -/
lemma frost_depth_reduce (dry_ro wc_pct magt d nFI k_avg : ℚ) :
    frost_depth_from_inputs dry_ro wc_pct magt d nFI k_avg
      = if d = 0 then none
        else if nFI / d = 0 then none
        else if compute_volumetric_latent_heat_of_fusion dry_ro wc_pct = 0 then none
        else if 1 + roundTo 3 (nFI / d * (compute_avg_volumetric_specific_heat dry_ro wc_pct
              / compute_volumetric_latent_heat_of_fusion dry_ro wc_pct))
            * (roundTo 3 (compute_v_o magt / (nFI / d)) + 1/2) ≤ 0 then none
        else if (48 * k_avg * nFI) / compute_volumetric_latent_heat_of_fusion dry_ro wc_pct < 0
          then none
        else some (roundMulSqrt 1
            (roundMulSqrt 2 1
              (1 / (1 + roundTo 3 (nFI / d * (compute_avg_volumetric_specific_heat dry_ro wc_pct
                  / compute_volumetric_latent_heat_of_fusion dry_ro wc_pct))
                * (roundTo 3 (compute_v_o magt / (nFI / d)) + 1/2))))
            ((48 * k_avg * nFI) / compute_volumetric_latent_heat_of_fusion dry_ro wc_pct)) :=
  bind_chain_eq d nFI (compute_v_o magt)
    (compute_volumetric_latent_heat_of_fusion dry_ro wc_pct)
    (compute_avg_volumetric_specific_heat dry_ro wc_pct) k_avg

/-- The numeric chain of the source and the spec's eight-step chain agree
everywhere. -/
lemma frost_depth_eq_spec_chain (dry_ro wc_pct magt d nFI k_avg : ℚ) :
    frost_depth_from_inputs dry_ro wc_pct magt d nFI k_avg
      = specFrostDepthChain dry_ro wc_pct magt d nFI k_avg := by
  rw [frost_depth_reduce]
  rfl

/-- Step values at the end-to-end scenario input
`dry_ro = 100, wc_pct = 15, magt = 20, d = 160, nFI = 2250, k_avg = 0.78`. -/
lemma evalA_L : compute_volumetric_latent_heat_of_fusion 100 15 = 2160 := by
  unfold compute_volumetric_latent_heat_of_fusion
  rw [roundTo_eq_low 2 _ 216000 (by norm_num) (by norm_num)]
  norm_num

lemma evalA_c : compute_avg_volumetric_specific_heat 100 15 = 113/4 := by
  unfold compute_avg_volumetric_specific_heat
  rw [roundTo_eq_low 2 _ 2825 (by norm_num) (by norm_num)]
  norm_num

lemma evalA_vs : compute_seasonal_v_s 2250 160 = some (225/16) := by
  unfold compute_seasonal_v_s
  norm_num

lemma evalA_vo : compute_v_o 20 = 12 := by
  unfold compute_v_o
  norm_num

lemma evalA_tr : compute_thermal_ratio 12 (225/16) = some (853/1000) := by
  unfold compute_thermal_ratio
  rw [if_neg (by norm_num), roundTo_eq_low 3 _ 853 (by norm_num) (by norm_num)]
  norm_num

lemma evalA_mu : compute_fusion_parameter (225/16) (113/4) 2160 = some (23/125) := by
  unfold compute_fusion_parameter
  rw [if_neg (by norm_num), roundTo_eq_high 3 _ 184 (by norm_num) (by norm_num)]
  norm_num

lemma evalA_lam : compute_coeff (23/125) (853/1000) = some (89/100) := by
  unfold compute_coeff
  rw [if_neg (by norm_num), roundMulSqrt_eq_of 2 1 _ 89 (by norm_num) (by norm_num)
    (by norm_num) (by norm_num)]
  norm_num

lemma evalA_x : compute_depth_of_freezing (89/100) (39/50) 2250 2160 = some (28/5) := by
  unfold compute_depth_of_freezing
  rw [if_neg (by norm_num), if_neg (by norm_num), roundMulSqrt_eq_of 1 (89/100) _ 56
    (by norm_num) (by norm_num) (by norm_num) (by norm_num)]
  norm_num

lemma evalA_tr_val : roundTo 3 (12 / (2250 / 160 : ℚ)) = 853/1000 := by
  rw [roundTo_eq_low 3 _ 853 (by norm_num) (by norm_num)]
  norm_num

lemma evalA_mu_val : roundTo 3 ((2250 / 160 : ℚ) * (113/4 / 2160)) = 23/125 := by
  rw [roundTo_eq_high 3 _ 184 (by norm_num) (by norm_num)]
  norm_num

lemma evalA_lam_val :
    roundMulSqrt 2 1 (1 / (1 + (23/125 : ℚ) * (853/1000 + 1/2))) = 89/100 := by
  rw [roundMulSqrt_eq_of 2 1 _ 89 (by norm_num) (by norm_num) (by norm_num) (by norm_num)]
  norm_num

lemma evalA_x_val :
    roundMulSqrt 1 (89/100 : ℚ) (48 * (39/50) * 2250 / 2160) = 28/5 := by
  rw [roundMulSqrt_eq_of 1 (89/100) _ 56 (by norm_num) (by norm_num) (by norm_num) (by norm_num)]
  norm_num

lemma evalA_chain : frost_depth_from_inputs 100 15 20 160 2250 (39/50) = some (28/5) := by
  rw [frost_depth_reduce, evalA_L, evalA_c, evalA_vo, evalA_tr_val, evalA_mu_val]
  rw [if_neg (by norm_num : ¬(160 : ℚ) = 0)]
  rw [if_neg (by norm_num : ¬(2250 / 160 : ℚ) = 0)]
  rw [if_neg (by norm_num : ¬(2160 : ℚ) = 0)]
  rw [if_neg (by norm_num : ¬(1 + (23/125 : ℚ) * (853/1000 + 1/2) ≤ 0))]
  rw [if_neg (by norm_num : ¬(48 * (39/50 : ℚ) * 2250 / 2160 < 0))]
  rw [evalA_lam_val, evalA_x_val]

/-- Step values at `dry_ro = 62, wc_pct = 10, magt = 30, d = 54, nFI = 693,
k_avg = 1.39`, where stepwise rounding and deferred rounding differ. -/
lemma evalB_L : compute_volumetric_latent_heat_of_fusion 62 10 = 4464/5 := by
  unfold compute_volumetric_latent_heat_of_fusion
  rw [roundTo_eq_low 2 _ 89280 (by norm_num) (by norm_num)]
  norm_num

lemma evalB_c : compute_avg_volumetric_specific_heat 62 10 = 1519/100 := by
  unfold compute_avg_volumetric_specific_heat
  rw [roundTo_eq_low 2 _ 1519 (by norm_num) (by norm_num)]
  norm_num

lemma evalB_vo : compute_v_o 30 = 2 := by
  unfold compute_v_o
  norm_num

lemma evalB_tr_val : roundTo 3 (2 / (693 / 54 : ℚ)) = 39/250 := by
  rw [roundTo_eq_high 3 _ 156 (by norm_num) (by norm_num)]
  norm_num

lemma evalB_mu_val : roundTo 3 ((693 / 54 : ℚ) * (1519/100 / (4464/5))) = 109/500 := by
  rw [roundTo_eq_low 3 _ 218 (by norm_num) (by norm_num)]
  norm_num

lemma evalB_lam_val :
    roundMulSqrt 2 1 (1 / (1 + (109/500 : ℚ) * (39/250 + 1/2))) = 47/50 := by
  rw [roundMulSqrt_eq_of 2 1 _ 94 (by norm_num) (by norm_num) (by norm_num) (by norm_num)]
  norm_num

lemma evalB_x_val :
    roundMulSqrt 1 (47/50 : ℚ) (48 * (139/100) * 693 / (4464/5)) = 34/5 := by
  rw [roundMulSqrt_eq_of 1 (47/50) _ 68 (by norm_num) (by norm_num) (by norm_num) (by norm_num)]
  norm_num

lemma evalB_chain : frost_depth_from_inputs 62 10 30 54 693 (139/100) = some (34/5) := by
  rw [frost_depth_reduce, evalB_L, evalB_c, evalB_vo, evalB_tr_val, evalB_mu_val]
  rw [if_neg (by norm_num : ¬(54 : ℚ) = 0)]
  rw [if_neg (by norm_num : ¬(693 / 54 : ℚ) = 0)]
  rw [if_neg (by norm_num : ¬(4464 / 5 : ℚ) = 0)]
  rw [if_neg (by norm_num : ¬(1 + (109/500 : ℚ) * (39/250 + 1/2) ≤ 0))]
  rw [if_neg (by norm_num : ¬(48 * (139/100 : ℚ) * 693 / (4464/5) < 0))]
  rw [evalB_lam_val, evalB_x_val]

lemma evalB_deferred : deferredFrostDepth 62 10 30 54 693 (139/100) = some (67/10) := by
  unfold deferredFrostDepth
  rw [if_neg (by norm_num), if_neg (by norm_num), if_neg (by norm_num),
    if_neg (by norm_num), if_neg (by norm_num), roundMulSqrt_eq_of 1 1 _ 67
    (by norm_num) (by norm_num) (by norm_num) (by norm_num)]
  norm_num

/-- The numeric chain succeeds with a nonnegative depth whenever the
duration is nonzero, the surface freezing intensity is positive, the
rounded latent heat is positive, the rounded specific heat and the
conductivity and freezing index are nonnegative. -/
lemma frost_chain_some (dry_ro wc_pct magt d nFI k_avg : ℚ) (hd : ¬ d = 0)
    (hvs : 0 < nFI / d) (hL : 0 < roundTo 2 (144 * dry_ro * (wc_pct / 100)))
    (hc : 0 ≤ roundTo 2 (dry_ro * (17 / 100 + 3 / 4 * (wc_pct / 100))))
    (hk : 0 ≤ k_avg) (hnFI : 0 ≤ nFI) :
    ∃ x : ℚ, frost_depth_from_inputs dry_ro wc_pct magt d nFI k_avg = some x ∧ 0 ≤ x := by
  have hmu : 0 ≤ roundTo 3 (nFI / d * (roundTo 2 (dry_ro * (17 / 100 + 3 / 4 * (wc_pct / 100))) / roundTo 2 (144 * dry_ro * (wc_pct / 100)))) :=
    roundTo_nonneg _ _ (mul_nonneg (le_of_lt hvs) (div_nonneg hc (le_of_lt hL)))
  have htr : 0 ≤ roundTo 3 (|magt - 32| / (nFI / d)) :=
    roundTo_nonneg _ _ (div_nonneg (abs_nonneg _) (le_of_lt hvs))
  have ht : ¬ 1 + roundTo 3 (nFI / d * (roundTo 2 (dry_ro * (17 / 100 + 3 / 4 * (wc_pct / 100))) / roundTo 2 (144 * dry_ro * (wc_pct / 100)))) * (roundTo 3 (|magt - 32| / (nFI / d)) + 1 / 2) ≤ 0 := by
    push_neg
    nlinarith [hmu, htr]
  have hs : ¬ 48 * k_avg * nFI / roundTo 2 (144 * dry_ro * (wc_pct / 100)) < 0 := by
    push_neg
    exact div_nonneg (mul_nonneg (mul_nonneg (by norm_num) hk) hnFI) (le_of_lt hL)
  refine ⟨roundMulSqrt 1 (roundMulSqrt 2 1 (1 / (1 + roundTo 3 (nFI / d * (roundTo 2 (dry_ro * (17 / 100 + 3 / 4 * (wc_pct / 100))) / roundTo 2 (144 * dry_ro * (wc_pct / 100)))) * (roundTo 3 (|magt - 32| / (nFI / d)) + 1 / 2)))) (48 * k_avg * nFI / roundTo 2 (144 * dry_ro * (wc_pct / 100))), ?_,
    roundMulSqrt_nonneg _ _ _ (roundMulSqrt_nonneg _ _ _ (by norm_num))⟩
  unfold frost_depth_from_inputs compute_seasonal_v_s compute_thermal_ratio
    compute_fusion_parameter compute_coeff compute_depth_of_freezing compute_v_o
    compute_volumetric_latent_heat_of_fusion compute_avg_volumetric_specific_heat
  rw [if_neg hd, Option.some_bind, if_neg (ne_of_gt hvs), Option.some_bind,
    if_neg (ne_of_gt hL), Option.some_bind, if_neg ht, Option.some_bind,
    if_neg (ne_of_gt hL), if_neg hs]

/-- The sample temperature fetch evaluates to 34.7 °F:
the years 2040 and 2050 are kept, 2075 dropped, the mean is 1.5 °C and
`1.5 * 1.8 + 32 = 34.7` needs no rounding adjustment. -/
lemma eval_fetch_mat :
    get_projected_mat_from_api demoTempResponse "GFDL-CM3" "rcp45" 2040 2069
      = some (347/10) := by
  have step : get_projected_mat_from_api demoTempResponse "GFDL-CM3" "rcp45" 2040 2069
      = some (roundTo 1 (listMean [1, 2] * (9/5) + 32)) := rfl
  have hm : listMean [(1 : ℚ), 2] = 3/2 := by
    unfold listMean
    norm_num
  rw [step, hm, roundTo_eq_low 1 _ 347 (by norm_num) (by norm_num)]
  norm_num

/-! ## Claim theorems -/

/-- C1: in `compute_modified_bergrenn` each step's rounded output is what
the next step consumes, with exactly the roundings of §4.2 — `L` and `c`
to 2 decimals, `v_s` and `v_o` unrounded, the thermal ratio and `mu` to
3 decimals, lambda to 2 decimals, the final depth to 1 decimal — and the
rounding is genuinely stepwise: deferring all rounding to the end changes
the published depth (6.8 ft vs 6.7 ft at the exhibited input). -/
theorem pipeline_stepwise_roundings :
    (∀ (dry_ro wc_pct mat magt d nFI k_avg : ℚ) (resp : TempResponse)
       (model scenario : String) (year_start year_end : ℤ),
      compute_modified_bergrenn dry_ro wc_pct mat magt d nFI k_avg
          resp model scenario year_start year_end
        = (get_projected_mat_from_api resp model scenario year_start year_end).bind
            (fun _ => specFrostDepthChain dry_ro wc_pct magt d nFI k_avg))
    ∧ specFrostDepthChain 62 10 30 54 693 (139/100)
        ≠ deferredFrostDepth 62 10 30 54 693 (139/100) := by
  constructor
  · intro dry_ro wc_pct mat magt d nFI k_avg resp model scenario year_start year_end
    show (get_projected_mat_from_api resp model scenario year_start year_end).bind
        (fun _ => frost_depth_from_inputs dry_ro wc_pct magt d nFI k_avg) = _
    exact congrArg _ (funext fun _ => frost_depth_eq_spec_chain dry_ro wc_pct magt d nFI k_avg)
  · rw [← frost_depth_eq_spec_chain, evalB_chain, evalB_deferred]
    simp only [ne_eq, Option.some.injEq]
    norm_num

/-- C2 as stated is false on the code: at the scenario input the latent
heat is 2160.0 (not 216.0), the average volumetric specific heat is 28.25
(not 18.12 or 18.13), `mu` is 0.184 (not ≈ 1.175 to its 3-decimal
rounding) and lambda is 0.89 (not ≈ 0.70 to its 2-decimal rounding). -/
theorem end_to_end_claimed_values_false :
    compute_volumetric_latent_heat_of_fusion 100 15 = 2160 ∧ (2160 : ℚ) ≠ 216
    ∧ compute_avg_volumetric_specific_heat 100 15 = 113/4
    ∧ (113/4 : ℚ) ≠ 1812/100 ∧ (113/4 : ℚ) ≠ 1813/100
    ∧ compute_fusion_parameter (225/16) (113/4) 2160 = some (23/125)
    ∧ ¬ |(23/125 : ℚ) - 1175/1000| ≤ 5/10000
    ∧ compute_coeff (23/125) (853/1000) = some (89/100)
    ∧ ¬ |(89/100 : ℚ) - 70/100| ≤ 5/1000 := by
  refine ⟨evalA_L, by norm_num, evalA_c, by norm_num, by norm_num, evalA_mu, ?_, evalA_lam, ?_⟩
  · rw [abs_of_nonpos (by norm_num)]
    norm_num
  · rw [abs_of_nonneg (by norm_num)]
    norm_num

/-- C2 amended: at `dry_ro = 100, wc_pct = 15, mat = magt = 20, d = 160,
n = 0.75, k_avg = 0.78, designFI = 3000` the chain's values are
`nFI = 2250`, `L = 2160.0`, `c = 28.25`, `v_s = 14.0625`, `v_o = 12.0`,
`thermal_ratio = 0.853`, `mu = 0.184`, `lambda = 0.89`, and the final
depth is `x = 5.6`. -/
theorem end_to_end_scenario_values :
    (3/4 : ℚ) * 3000 = 2250
    ∧ compute_volumetric_latent_heat_of_fusion 100 15 = 2160
    ∧ compute_avg_volumetric_specific_heat 100 15 = 113/4
    ∧ compute_seasonal_v_s 2250 160 = some (225/16)
    ∧ compute_v_o 20 = 12
    ∧ compute_thermal_ratio 12 (225/16) = some (853/1000)
    ∧ compute_fusion_parameter (225/16) (113/4) 2160 = some (23/125)
    ∧ compute_coeff (23/125) (853/1000) = some (89/100)
    ∧ compute_depth_of_freezing (89/100) (39/50) 2250 2160 = some (28/5)
    ∧ frost_depth_from_inputs 100 15 20 160 2250 (39/50) = some (28/5) :=
  ⟨by norm_num, evalA_L, evalA_c, evalA_vs, evalA_vo, evalA_tr, evalA_mu,
    evalA_lam, evalA_x, evalA_chain⟩

/-- C3: on the documented domains (dry density in (20,135], water content
in [1,50], conductivity in (0.01,2], duration in [30,300], n-factor in
(0,1], a positive design freezing index) and given that the temperature
fetch returns a value, the latent heat is strictly positive and the
pipeline returns a finite, nonnegative frost depth. -/
theorem pipeline_safe (dry_ro wc_pct magt d n designFI k_avg mat m : ℚ)
    (resp : TempResponse) (model scenario : String) (year_start year_end : ℤ)
    (h1 : 20 < dry_ro) (h2 : dry_ro ≤ 135) (h3 : 1 ≤ wc_pct) (h4 : wc_pct ≤ 50)
    (h5 : 1/100 < k_avg) (h6 : k_avg ≤ 2) (h7 : 30 ≤ d) (h8 : d ≤ 300)
    (h9 : 0 < n) (h10 : n ≤ 1) (h11 : 0 < designFI)
    (hfetch : get_projected_mat_from_api resp model scenario year_start year_end = some m) :
    0 < compute_volumetric_latent_heat_of_fusion dry_ro wc_pct
    ∧ ∃ x : ℚ, compute_modified_bergrenn dry_ro wc_pct mat magt d (n * designFI) k_avg
        resp model scenario year_start year_end = some x ∧ 0 ≤ x := by
  have hw : (0 : ℚ) < wc_pct := by linarith
  have hdry : (0 : ℚ) < dry_ro := by linarith
  have hkey : (20 : ℚ) ≤ dry_ro * wc_pct := by nlinarith
  have hL : 0 < roundTo 2 (144 * dry_ro * (wc_pct / 100)) := by
    apply roundTo_pos
    nlinarith
  have hc : 0 ≤ roundTo 2 (dry_ro * (17 / 100 + 3 / 4 * (wc_pct / 100))) := by
    apply roundTo_nonneg
    nlinarith
  have hd0 : ¬ d = 0 := by intro h; rw [h] at h7; norm_num at h7
  have hnFI : 0 < n * designFI := mul_pos h9 h11
  have hvs : 0 < n * designFI / d := div_pos hnFI (by linarith)
  have hmb : compute_modified_bergrenn dry_ro wc_pct mat magt d (n * designFI) k_avg
      resp model scenario year_start year_end
      = frost_depth_from_inputs dry_ro wc_pct magt d (n * designFI) k_avg := by
    show (get_projected_mat_from_api resp model scenario year_start year_end).bind
        (fun _ => frost_depth_from_inputs dry_ro wc_pct magt d (n * designFI) k_avg) = _
    rw [hfetch]
    rfl
  refine ⟨hL, ?_⟩
  rw [hmb]
  exact frost_chain_some dry_ro wc_pct magt d (n * designFI) k_avg hd0 hvs hL hc
    (by linarith) (le_of_lt hnFI)

/-- Witness for C3 at the end-to-end scenario input with the sample
response: the depth is 5.6 ft. -/
theorem pipeline_safe_witness :
    0 < compute_volumetric_latent_heat_of_fusion 100 15
    ∧ ∃ x : ℚ, compute_modified_bergrenn 100 15 57 20 160 ((3/4) * 3000) (39/50)
        demoTempResponse "GFDL-CM3" "rcp45" 2040 2069 = some x ∧ 0 ≤ x :=
  pipeline_safe 100 15 20 160 (3/4) 3000 (39/50) 57 (347/10) demoTempResponse
    "GFDL-CM3" "rcp45" 2040 2069 (by norm_num) (by norm_num) (by norm_num)
    (by norm_num) (by norm_num) (by norm_num) (by norm_num) (by norm_num)
    (by norm_num) (by norm_num) (by norm_num) eval_fetch_mat

/-- C4 as stated is false on the code: `compute_modified_bergrenn` does
perform a network access — its side-effect trace contains the HTTP GET of
`get_projected_mat_from_api` (modberg.py line 201). -/
theorem pipeline_no_io_false :
    ApiEvent.httpGet ∈ compute_modified_bergrenn_events demoTempResponse "GFDL-CM3" "rcp45"
    ∧ compute_modified_bergrenn_events demoTempResponse "GFDL-CM3" "rcp45"
        = [ApiEvent.httpGet] := by
  constructor
  · show ApiEvent.httpGet ∈ ApiEvent.httpGet :: _
    exact List.mem_cons_self _ _
  · rfl

/-- C4 amended: the pipeline performs exactly one network access — the
temperature fetch, whose result is discarded — and apart from it the
computation is the pure function `frost_depth_from_inputs` of the numeric
arguments, so equal arguments and an equal response give equal depths. -/
theorem pipeline_single_fetch_deterministic :
    (∀ (resp : TempResponse) (model scenario : String),
      (compute_modified_bergrenn_events resp model scenario).count ApiEvent.httpGet = 1)
    ∧ (∀ (dry_ro wc_pct mat magt d nFI k_avg : ℚ) (resp : TempResponse)
         (model scenario : String) (year_start year_end : ℤ),
        compute_modified_bergrenn dry_ro wc_pct mat magt d nFI k_avg
            resp model scenario year_start year_end
          = (get_projected_mat_from_api resp model scenario year_start year_end).bind
              (fun _ => frost_depth_from_inputs dry_ro wc_pct magt d nFI k_avg)) := by
  constructor
  · intro resp model scenario
    unfold compute_modified_bergrenn_events mat_fetch_events
    cases hb : (resp.lookup model).bind (fun b => b.lookup scenario) <;> rfl
  · intro dry_ro wc_pct mat magt d nFI k_avg resp model scenario year_start year_end
    rfl

/-- C5: the temperature fetch takes the model/scenario branch, keeps
exactly the entries whose year lies in `[year_start, year_end]` inclusive,
averages them, converts by `F = C * 1.8 + 32` and rounds to 1 decimal. -/
theorem fetch_mat_spec (resp : TempResponse) (model scenario : String)
    (year_start year_end : ℤ) (entries : List (ℤ × ℚ))
    (hb : (resp.lookup model).bind (fun b => b.lookup scenario) = some entries)
    (hne : yearSlice year_start year_end entries ≠ []) :
    (∀ e : ℤ × ℚ, e ∈ yearSlice year_start year_end entries ↔
        e ∈ entries ∧ year_start ≤ e.1 ∧ e.1 ≤ year_end)
    ∧ get_projected_mat_from_api resp model scenario year_start year_end
        = some (roundTo 1
            (listMean ((yearSlice year_start year_end entries).map Prod.snd) * (9/5) + 32)) := by
  constructor
  · intro e
    unfold yearSlice
    simp [List.mem_filter]
  · unfold get_projected_mat_from_api
    rw [hb, Option.some_bind, if_neg (fun h => hne (List.length_eq_zero.mp h))]

/-- Witness for C5 on the sample response: the 2040 and 2050 entries are
kept (2075 is dropped) and the rounded conversion of their mean is
returned. -/
theorem fetch_mat_spec_witness :
    get_projected_mat_from_api demoTempResponse "GFDL-CM3" "rcp45" 2040 2069
      = some (roundTo 1
          (listMean ((yearSlice 2040 2069 [(2040, 1), (2050, 2), (2075, 10)]).map Prod.snd)
            * (9/5) + 32)) :=
  (fetch_mat_spec demoTempResponse "GFDL-CM3" "rcp45" 2040 2069
    [(2040, 1), (2050, 2), (2075, 10)] rfl (by decide)).2

/-- C6: the design-freezing-index fetch returns the `di` value of the
model → era branch unchanged — no rounding, no unit conversion — and
yields a `KeyError` failure, never a default, when the model, era or `di`
key is absent. -/
theorem fetch_design_fi_spec :
    (∀ (resp : FiResponse) (model era : String)
       (b : List (String × List (String × ℚ))) (o : List (String × ℚ)) (v : ℚ),
        resp.lookup model = some b → b.lookup era = some o → o.lookup "di" = some v →
        get_projected_design_fi_from_api resp model era = some v)
    ∧ (∀ (resp : FiResponse) (model era : String),
        resp.lookup model = none → get_projected_design_fi_from_api resp model era = none)
    ∧ (∀ (resp : FiResponse) (model era : String)
         (b : List (String × List (String × ℚ))),
        resp.lookup model = some b → b.lookup era = none →
        get_projected_design_fi_from_api resp model era = none)
    ∧ (∀ (resp : FiResponse) (model era : String)
         (b : List (String × List (String × ℚ))) (o : List (String × ℚ)),
        resp.lookup model = some b → b.lookup era = some o → o.lookup "di" = none →
        get_projected_design_fi_from_api resp model era = none) := by
  refine ⟨?_, ?_, ?_, ?_⟩
  · intro resp model era b o v h1 h2 h3
    unfold get_projected_design_fi_from_api
    simp only [h1, h2, h3, Option.some_bind]
  · intro resp model era h1
    unfold get_projected_design_fi_from_api
    simp only [h1, Option.none_bind]
  · intro resp model era b h1 h2
    unfold get_projected_design_fi_from_api
    simp only [h1, h2, Option.some_bind, Option.none_bind]
  · intro resp model era b o h1 h2 h3
    unfold get_projected_design_fi_from_api
    simp only [h1, h2, h3, Option.some_bind]

/-- Witness for C6 on the sample response: `di` is returned unchanged. -/
theorem fetch_design_fi_spec_witness :
    get_projected_design_fi_from_api demoFiResponse "GFDL-CM3" "2040-2069" = some 3000 :=
  fetch_design_fi_spec.1 demoFiResponse "GFDL-CM3" "2040-2069"
    [("2040-2069", [("di", 3000)]), ("2070-2099", [("di", 2500)])] [("di", 3000)] 3000
    rfl rfl rfl

/-- C7 as stated is false on the code: a model outside the enumerated set
is not rejected before the network call — the HTTP GET is issued first,
unconditionally, and the subsequent failure is a key-lookup error, not an
InputRangeError. -/
theorem fetch_rejects_before_network_false :
    "FOO-MODEL" ∉ temperature_models
    ∧ mat_fetch_events demoTempResponse "FOO-MODEL" "rcp45"
        = [ApiEvent.httpGet, ApiEvent.keyError]
    ∧ (mat_fetch_events demoTempResponse "FOO-MODEL" "rcp45").head? = some ApiEvent.httpGet
    ∧ ApiEvent.inputRangeError ∉ mat_fetch_events demoTempResponse "FOO-MODEL" "rcp45" := by
  refine ⟨by decide, rfl, rfl, by decide⟩

/-- C7 amended: neither fetch validates its selectors before the request:
every trace begins with the HTTP GET and never contains an
InputRangeError; a model absent from the response fails afterward with a
key-lookup error. -/
theorem fetch_no_validation_before_network :
    (∀ (resp : TempResponse) (model scenario : String),
      (mat_fetch_events resp model scenario).head? = some ApiEvent.httpGet
      ∧ ApiEvent.inputRangeError ∉ mat_fetch_events resp model scenario)
    ∧ (∀ (resp : FiResponse) (model era : String),
      (design_fi_fetch_events resp model era).head? = some ApiEvent.httpGet
      ∧ ApiEvent.inputRangeError ∉ design_fi_fetch_events resp model era)
    ∧ (∀ (resp : TempResponse) (model scenario : String),
        resp.lookup model = none →
        mat_fetch_events resp model scenario = [ApiEvent.httpGet, ApiEvent.keyError])
    ∧ (∀ (resp : FiResponse) (model era : String),
        resp.lookup model = none →
        design_fi_fetch_events resp model era = [ApiEvent.httpGet, ApiEvent.keyError]) := by
  refine ⟨?_, ?_, ?_, ?_⟩
  · intro resp model scenario
    unfold mat_fetch_events
    cases hb : (resp.lookup model).bind (fun b => b.lookup scenario) <;>
      exact ⟨rfl, by intro hmem; simp at hmem⟩
  · intro resp model era
    unfold design_fi_fetch_events
    cases hb : get_projected_design_fi_from_api resp model era <;>
      exact ⟨rfl, by intro hmem; simp at hmem⟩
  · intro resp model scenario hnone
    unfold mat_fetch_events
    rw [hnone]
    rfl
  · intro resp model era hnone
    unfold design_fi_fetch_events get_projected_design_fi_from_api
    rw [hnone]
    rfl

/-- Witness for C7 amended on an empty response. -/
theorem fetch_no_validation_before_network_witness :
    mat_fetch_events [] "GFDL-CM3" "rcp45" = [ApiEvent.httpGet, ApiEvent.keyError] :=
  fetch_no_validation_before_network.2.2.1 [] "GFDL-CM3" "rcp45" rfl

/-- C8's concrete value is false on the code: at `(100, 15)` the average
volumetric specific heat is exactly 28.25 — the raw value
`100 * (0.17 + 0.75 * 0.15) = 28.25` is not 18.125, so neither 18.12 nor
18.13 is returned under any round-half convention. -/
theorem avg_specific_heat_value_false :
    compute_avg_volumetric_specific_heat 100 15 = 113/4
    ∧ (113/4 : ℚ) ≠ 1812/100 ∧ (113/4 : ℚ) ≠ 1813/100 :=
  ⟨evalA_c, by norm_num, by norm_num⟩

/-- C8 amended: the three specific-heat variants compute
`round(dry_ro * (0.17 + w * wc_pct/100), 2)` with weights `w = 0.75`
(average), `0.5` (frozen), `1.0` (unfrozen); at `(100, 15)` the average
variant returns 28.25 exactly (no rounding tie arises). -/
theorem volumetric_specific_heat_formulas (dry_ro wc_pct : ℚ) :
    compute_avg_volumetric_specific_heat dry_ro wc_pct
        = roundTo 2 (dry_ro * (17/100 + (3/4) * (wc_pct / 100)))
    ∧ compute_frozen_volumetric_specific_heat dry_ro wc_pct
        = roundTo 2 (dry_ro * (17/100 + (1/2) * (wc_pct / 100)))
    ∧ compute_unfrozen_volumetric_specific_heat dry_ro wc_pct
        = roundTo 2 (dry_ro * (17/100 + 1 * (wc_pct / 100)))
    ∧ compute_avg_volumetric_specific_heat 100 15 = 113/4 :=
  ⟨rfl, rfl, rfl, evalA_c⟩

/-- C9: the thermal ratio is scale-invariant — scaling `v_o` and `v_s` by
a common positive factor leaves the rounded ratio unchanged. -/
theorem thermal_ratio_scale_invariant (v_o v_s k : ℚ) (hvs : v_s ≠ 0) (hk : 0 < k) :
    compute_thermal_ratio (k * v_o) (k * v_s) = compute_thermal_ratio v_o v_s := by
  have hk0 : k ≠ 0 := ne_of_gt hk
  unfold compute_thermal_ratio
  rw [if_neg (mul_ne_zero hk0 hvs), if_neg hvs, mul_div_mul_left v_o v_s hk0]

/-- Witness for C9 at `v_o = 12, v_s = 14, k = 3`. -/
theorem thermal_ratio_scale_invariant_witness :
    (14 : ℚ) ≠ 0 ∧ (0 : ℚ) < 3
    ∧ compute_thermal_ratio (3 * 12) (3 * 14) = compute_thermal_ratio 12 14 :=
  ⟨by norm_num, by norm_num,
    thermal_ratio_scale_invariant 12 14 3 (by norm_num) (by norm_num)⟩

/-- C10: the `mat` argument of `compute_modified_bergrenn` never
influences the returned depth — it is shadowed by the fetch at line 201
and the fetched value itself is never read — and with a fixed response the
depth is the function `frost_depth_from_inputs` of
`dry_ro, wc_pct, magt, d, nFI, k_avg` alone. -/
theorem mat_argument_never_influences :
    (∀ (dry_ro wc_pct mat mat' magt d nFI k_avg : ℚ) (resp : TempResponse)
       (model scenario : String) (year_start year_end : ℤ),
      compute_modified_bergrenn dry_ro wc_pct mat magt d nFI k_avg
          resp model scenario year_start year_end
        = compute_modified_bergrenn dry_ro wc_pct mat' magt d nFI k_avg
            resp model scenario year_start year_end)
    ∧ (∀ (dry_ro wc_pct mat magt d nFI k_avg m : ℚ) (resp : TempResponse)
         (model scenario : String) (year_start year_end : ℤ),
        get_projected_mat_from_api resp model scenario year_start year_end = some m →
        compute_modified_bergrenn dry_ro wc_pct mat magt d nFI k_avg
            resp model scenario year_start year_end
          = frost_depth_from_inputs dry_ro wc_pct magt d nFI k_avg) := by
  constructor
  · intro dry_ro wc_pct mat mat' magt d nFI k_avg resp model scenario year_start year_end
    rfl
  · intro dry_ro wc_pct mat magt d nFI k_avg m resp model scenario year_start year_end hm
    show (get_projected_mat_from_api resp model scenario year_start year_end).bind
        (fun _ => frost_depth_from_inputs dry_ro wc_pct magt d nFI k_avg) = _
    rw [hm]
    rfl

/-- Witness for C10 on the sample response. -/
theorem mat_argument_never_influences_witness :
    compute_modified_bergrenn 100 15 57 20 160 2250 (39/50)
        demoTempResponse "GFDL-CM3" "rcp45" 2040 2069
      = frost_depth_from_inputs 100 15 20 160 2250 (39/50) :=
  mat_argument_never_influences.2 100 15 57 20 160 2250 (39/50) (347/10)
    demoTempResponse "GFDL-CM3" "rcp45" 2040 2069 eval_fetch_mat

end Modberg
